import Mathlib

/-!
Shallow embedding of the book-catalog service (`src/cmd/main.go`): the
`BookStore` document model, the MongoDB collection operations the program
uses (find-one / insert-one / update-one / delete-one / find-by-example),
the seed routine `prepareData`, the projection queries `findAllBooks` /
`findAllAuthors`, and the four `/api/books` request handlers.  Handlers are
modelled as pure functions from a collection state and a parsed request to
an HTTP status, a response body, and the successor state (requests are
sequential; database transport errors are not modelled, so the code's
500-on-db-error branches are unreachable here).
-/

set_option autoImplicit false

namespace BookSvc

/-- The `BookStore` struct of `main.go`.  `mongoID` models the
`primitive.ObjectID` `_id` field (`omitempty`): `none` before persistence,
`some oid` once the store has assigned an identifier.  All remaining
fields are strings, exactly as in the Go struct. -/
structure BookStore where
  mongoID : Option Nat
  id : String
  bookName : String
  bookAuthor : String
  bookEdition : String
  bookPages : String
  bookYear : String
deriving DecidableEq

/-- The state of the `information` collection: the stored documents in
insertion order, plus a counter supplying fresh object ids. -/
structure Collection where
  docs : List BookStore
  nextOid : Nat
deriving DecidableEq

/-- A parsed JSON value, as far as the PUT handler's
`map[string]interface{}` payload distinguishes them: the handler's
`.(string)` type assertions succeed exactly on `str`. -/
inductive JVal where
  | str : String → JVal
  | num : Int → JVal
  | jsonBool : Bool → JVal
  | jsonNull : JVal
deriving DecidableEq

/-- A parsed JSON object body for PUT: key/value pairs (keys unique after
Go's JSON bind; lookups take the first match). -/
abbrev Payload : Type := List (String × JVal)

/-- `coll.FindOne(ctx, bson.M{"id": i})`: first stored document whose `id`
field equals `i`. -/
def findOneById (s : Collection) (i : String) : Option BookStore :=
  s.docs.find? (fun d => d.id == i)

/-- `coll.InsertOne(ctx, b)`: append the document, with the store
assigning a fresh object id (`_id`). -/
def insertOne (s : Collection) (b : BookStore) : Collection :=
  { docs := s.docs ++ [{ b with mongoID := some s.nextOid }],
    nextOid := s.nextOid + 1 }

/-- `coll.UpdateOne`: rewrite the first document satisfying the filter. -/
def updateFirst (p : BookStore → Bool) (f : BookStore → BookStore) :
    List BookStore → List BookStore
  | [] => []
  | d :: ds => if p d then f d :: ds else d :: updateFirst p f ds

/-- `coll.DeleteOne`: remove the first document satisfying the filter. -/
def removeFirst (p : BookStore → Bool) : List BookStore → List BookStore
  | [] => []
  | d :: ds => if p d then ds else d :: removeFirst p ds

/-- Number of stored documents whose `id` field equals `i`. -/
def countId (s : Collection) (i : String) : Nat :=
  (s.docs.filter (fun d => d.id == i)).length

/-! ## Seed routine (`prepareData`, main.go lines 95-153) -/

/-- First fixture book of `prepareData` (`startData`), verbatim from the
source, byte for byte (the author string carries the source file's own
mojibake). -/
def fixture1 : BookStore :=
  { mongoID := none, id := "example1", bookName := "The Vortex",
    bookAuthor := "JosÃ© Eustasio Rivera", bookEdition := "958-30-0804-4",
    bookPages := "292", bookYear := "1924" }

/-- Second fixture book of `startData`. -/
def fixture2 : BookStore :=
  { mongoID := none, id := "example2", bookName := "Frankenstein",
    bookAuthor := "Mary Shelley", bookEdition := "978-3-649-64609-9",
    bookPages := "280", bookYear := "1818" }

/-- Third fixture book of `startData`. -/
def fixture3 : BookStore :=
  { mongoID := none, id := "example3", bookName := "The Black Cat",
    bookAuthor := "Edgar Allan Poe", bookEdition := "978-3-99168-238-7",
    bookPages := "280", bookYear := "1843" }

/-- The fixture list of `prepareData`. -/
def startData : List BookStore := [fixture1, fixture2, fixture3]

/-- The filter `coll.Find(ctx, book)` uses: the whole struct marshalled
with `_id` omitted (`omitempty` on a zero ObjectID), i.e. full-value
equality on the six named fields, ignoring the stored object id. -/
def matchesBook (b d : BookStore) : Bool :=
  d.id == b.id && d.bookName == b.bookName && d.bookAuthor == b.bookAuthor &&
    d.bookEdition == b.bookEdition && d.bookPages == b.bookPages &&
    d.bookYear == b.bookYear

/-- Documents matching a fixture book by full-value equality. -/
def countMatches (b : BookStore) (s : Collection) : Nat :=
  (s.docs.filter (matchesBook b)).length

/-- One iteration of the `prepareData` loop: find documents equal to the
fixture; more than one match is fatal (`log.Fatal`, modelled as `none`);
zero matches inserts the fixture; exactly one match leaves the store
untouched. -/
def seedBook (b : BookStore) (s : Collection) : Option Collection :=
  let results := s.docs.filter (matchesBook b)
  if results.length > 1 then none
  else if results.length == 0 then some (insertOne s b)
  else some s

/-- `prepareData`: seed every fixture book in order. -/
def prepareData (s : Collection) : Option Collection :=
  List.foldlM (fun st b => seedBook b st) s startData

/-! ## Read-side queries (main.go lines 159-197) -/

/-- `findAllBooks`: full scan, each document projected to the wire object
`{"id": .., "title": .., "author": .., "pages": .., "edition": .., "year": ..}`
(the map literal of lines 168-175; the stored `_id` is not projected). -/
def findAllBooks (s : Collection) : List (List (String × String)) :=
  s.docs.map (fun res =>
    [("id", res.id), ("title", res.bookName), ("author", res.bookAuthor),
     ("pages", res.bookPages), ("edition", res.bookEdition),
     ("year", res.bookYear)])

/-- `findAllAuthors`: collect the `"author"` value of every wire object
produced by `findAllBooks`, deduplicate through the
`uniqueAuthorsMap` set (iteration order unspecified in Go; modelled by
`List.dedup`), and wrap each author as `{"AuthorName": author}`. -/
def findAllAuthors (s : Collection) : List (List (String × String)) :=
  (((findAllBooks s).filterMap
      (fun book => (book.find? (fun kv => kv.1 == "author")).map
        (fun kv => kv.2))).dedup).map
    (fun author => [("AuthorName", author)])

/-! ## Request handlers (main.go lines 296-415) -/

/-- `GET /api/books`: status 200 with the `findAllBooks` projection. -/
def getBooks (s : Collection) : Nat × List (List (String × String)) :=
  (200, findAllBooks s)

/-- `POST /api/books` on a body that parsed into a `BookStore` (a bind
failure returns 400 before this logic runs): empty `id` returns 500
("Failed to create book"); an existing document with the same `id`
returns 409; otherwise the book is inserted and 201 returned. -/
def postBook (s : Collection) (book : BookStore) : Nat × Collection :=
  if book.id == "" then (500, s)
  else
    match findOneById s book.id with
    | some _ => (409, s)
    | none => (201, insertOne s book)

/-- `requestPayload[k].(string)`: the value at key `k` when it is present
and a JSON string, otherwise nothing (the `ok := false` branches). -/
def stringField (p : Payload) (k : String) : Option String :=
  match p.find? (fun kv => kv.1 == k) with
  | some (_, JVal.str v) => some v
  | _ => none

/-- The `updateSet` map built by the PUT handler (lines 353-369): each
recognized wire key whose value is a string contributes its BSON field
name. -/
def buildUpdateSet (p : Payload) : List (String × String) :=
  (match stringField p "title" with
    | some v => [("bookname", v)] | none => []) ++
  (match stringField p "author" with
    | some v => [("bookauthor", v)] | none => []) ++
  (match stringField p "edition" with
    | some v => [("bookedition", v)] | none => []) ++
  (match stringField p "pages" with
    | some v => [("bookpages", v)] | none => []) ++
  (match stringField p "year" with
    | some v => [("bookyear", v)] | none => [])

/-- Apply one `$set` entry (BSON field name ↦ new string value) to a
stored document. -/
def setField (d : BookStore) (kv : String × String) : BookStore :=
  if kv.1 == "bookname" then { d with bookName := kv.2 }
  else if kv.1 == "bookauthor" then { d with bookAuthor := kv.2 }
  else if kv.1 == "bookedition" then { d with bookEdition := kv.2 }
  else if kv.1 == "bookpages" then { d with bookPages := kv.2 }
  else if kv.1 == "bookyear" then { d with bookYear := kv.2 }
  else d

/-- Apply a whole `$set` document. -/
def setFields (u : List (String × String)) (d : BookStore) : BookStore :=
  u.foldl setField d

/-- `PUT /api/books/:id` on a body that parsed into a JSON object: build
`updateSet`; empty set returns 400 ("No valid fields provided for
update"); `UpdateOne` on the `id` filter, 404 when nothing matched;
otherwise re-fetch the document and return it with 200 (the re-fetch
failing is the code's 500 race branch, unreachable sequentially). -/
def putBook (s : Collection) (idParam : String) (p : Payload) :
    Nat × Option BookStore × Collection :=
  let updateSet := buildUpdateSet p
  if updateSet.isEmpty then (400, none, s)
  else if s.docs.any (fun d => d.id == idParam) then
    let s' : Collection :=
      { s with docs := updateFirst (fun d => d.id == idParam)
                         (setFields updateSet) s.docs }
    match findOneById s' idParam with
    | some d => (200, some d, s')
    | none => (500, none, s')
  else (404, none, s)

/-- `DELETE /api/books/:id`: `DeleteOne` on the `id` filter; zero deleted
returns 404 with an error body, otherwise 200 with no body
(`c.NoContent`). -/
def deleteBook (s : Collection) (idParam : String) :
    Nat × Option String × Collection :=
  if s.docs.any (fun d => d.id == idParam) then
    (200, none,
      { s with docs := removeFirst (fun d => d.id == idParam) s.docs })
  else (404, some ("Book not found with ID " ++ idParam), s)

/-! ## Concrete states used by witnesses and counterexamples -/

/-- A fresh, empty collection. -/
def emptyColl : Collection := { docs := [], nextOid := 0 }

/-- A parsed POST body whose `id` field is the empty string. -/
def bkNoId : BookStore :=
  { mongoID := none, id := "", bookName := "Ghost", bookAuthor := "Nobody",
    bookEdition := "1", bookPages := "1", bookYear := "2024" }

/-! ## Helper lemmas -/

theorem find?_updateFirst (p : BookStore → Bool) (f : BookStore → BookStore)
    (l : List BookStore) (d : BookStore)
    (hf : p (f d) = true) (h : l.find? p = some d) :
    (updateFirst p f l).find? p = some (f d) := by
  induction l with
  | nil => simp at h
  | cons a as ih =>
    by_cases hpa : p a = true
    · rw [List.find?_cons_of_pos _ hpa] at h
      injection h with h
      subst h
      simp [updateFirst, hpa, List.find?_cons_of_pos _ hf]
    · rw [List.find?_cons_of_neg _ hpa] at h
      simp [updateFirst, hpa, List.find?_cons_of_neg _ hpa, ih h]

theorem any_of_find?_eq_some (p : BookStore → Bool) (l : List BookStore)
    (d : BookStore) (h : l.find? p = some d) : l.any p = true :=
  List.any_eq_true.mpr ⟨d, List.mem_of_find?_eq_some h, List.find?_some h⟩

theorem filter_removeFirst (p : BookStore → Bool) (l : List BookStore) :
    (removeFirst p l).filter p = (l.filter p).tail := by
  induction l with
  | nil => rfl
  | cons a as ih =>
    by_cases hpa : p a = true
    · simp [removeFirst, hpa, List.filter_cons]
    · simp [removeFirst, hpa, List.filter_cons, ih]

/-! ## C1: POST with empty id -/

/-- C1 counterexample: the claim says an empty-`id` POST whose body parses
returns 400; on the code it returns 500 (line 315,
`http.StatusInternalServerError`). -/
theorem c1_post_empty_id_not_400 :
    (postBook emptyColl bkNoId).1 = 500 ∧
      (postBook emptyColl bkNoId).1 ≠ 400 := by
  constructor
  · rfl
  · decide

/-- C1 (amended): for every POST whose JSON body parses but whose `id`
field is the empty string, the handler returns HTTP status 500 ("Failed
to create book") and no document is inserted into the collection. -/
theorem postBook_empty_id (s : Collection) (book : BookStore)
    (h : book.id = "") : postBook s book = (500, s) := by
  simp [postBook, h]

/-- Witness for `postBook_empty_id` at a concrete empty-id body. -/
theorem postBook_empty_id_witness : postBook emptyColl bkNoId =
    (500, emptyColl) :=
  postBook_empty_id emptyColl bkNoId rfl

/-! ## C2: PUT title-only update -/

/-- A stored document used by several witnesses. -/
def bkD : BookStore :=
  { mongoID := some 7, id := "b1", bookName := "Old", bookAuthor := "A",
    bookEdition := "E", bookPages := "10", bookYear := "1999" }

/-- A collection holding exactly `bkD`. -/
def oneColl : Collection := { docs := [bkD], nextOid := 8 }

/-- C2: a PUT on an existing `id` with body `{"title": t}` returns 200;
the addressed document's title becomes `t` while its `mongoID`, `id`,
`author`, `edition`, `pages` and `year` are unchanged (the record update
touches only `bookName`); every other document is untouched; and the
response body is the updated document. -/
theorem putBook_title_patch (s : Collection) (i t : String)
    (d : BookStore) (h : findOneById s i = some d) :
    putBook s i [("title", JVal.str t)] =
      (200, some { d with bookName := t },
        { s with docs := updateFirst (fun x => x.id == i)
                   (fun x => { x with bookName := t }) s.docs }) := by
  have hany : s.docs.any (fun x => x.id == i) = true :=
    any_of_find?_eq_some _ _ _ h
  have h' : s.docs.find? (fun x => x.id == i) = some d := h
  have hfd : (d.id == i) = true :=
    @List.find?_some _ (fun x => x.id == i) d s.docs h'
  have hfind := find?_updateFirst (fun x => x.id == i)
    (fun x => { x with bookName := t }) s.docs d hfd h'
  have hbuild : buildUpdateSet [("title", JVal.str t)] = [("bookname", t)] :=
    rfl
  have hset : setFields [("bookname", t)] =
      fun x => { x with bookName := t } := rfl
  simp [putBook, hbuild, hset, hany, findOneById, hfind]

/-- Witness for `putBook_title_patch` on the one-document collection. -/
theorem putBook_title_patch_witness :
    putBook oneColl "b1" [("title", JVal.str "New Title")] =
      (200, some { bkD with bookName := "New Title" },
        { oneColl with
            docs := updateFirst (fun x => x.id == "b1")
                      (fun x => { x with bookName := "New Title" })
                      oneColl.docs }) :=
  putBook_title_patch oneColl "b1" "New Title" bkD rfl

/-! ## C3: sequential duplicate POST -/

theorem countId_eq_zero_iff (s : Collection) (i : String) :
    countId s i = 0 ↔ findOneById s i = none := by
  simp [countId, findOneById, List.length_eq_zero, List.filter_eq_nil_iff,
    List.find?_eq_none]

theorem countId_pos_exists (s : Collection) (i : String)
    (h : countId s i ≠ 0) : ∃ d, findOneById s i = some d := by
  have hne : findOneById s i ≠ none :=
    fun he => h ((countId_eq_zero_iff s i).mpr he)
  exact Option.ne_none_iff_exists'.mp hne

theorem countId_insertOne (s : Collection) (b : BookStore) (i : String)
    (hb : b.id = i) : countId (insertOne s b) i = countId s i + 1 := by
  simp [countId, insertOne, List.filter_append, List.filter_cons, hb]

/-- C3: two sequential POSTs carrying the same non-empty `id` into a
state holding at most one document with that `id`: the second request
returns 409 and the final collection holds exactly one document with
that `id`. -/
theorem postBook_second_conflict (s : Collection) (b1 b2 : BookStore)
    (i : String) (hi : i ≠ "") (h1 : b1.id = i) (h2 : b2.id = i)
    (hcount : countId s i ≤ 1) :
    (postBook (postBook s b1).2 b2).1 = 409 ∧
      countId (postBook (postBook s b1).2 b2).2 i = 1 := by
  have hne1 : (b1.id == "") = false := by
    rw [h1]; exact beq_eq_false_iff_ne.mpr hi
  have hne2 : (b2.id == "") = false := by
    rw [h2]; exact beq_eq_false_iff_ne.mpr hi
  cases hf : findOneById s i with
  | some d =>
    have hc1 : countId s i = 1 := by
      have h0 : countId s i ≠ 0 := by
        intro h0
        rw [countId_eq_zero_iff] at h0
        rw [h0] at hf
        exact Option.noConfusion hf
      omega
    have p1 : postBook s b1 = (409, s) := by simp [postBook, hne1, h1, hf, hi]
    have p2 : postBook s b2 = (409, s) := by simp [postBook, hne2, h2, hf, hi]
    simp [p1, p2, hc1]
  | none =>
    have hc0 : countId s i = 0 := (countId_eq_zero_iff s i).mpr hf
    have p1 : postBook s b1 = (201, insertOne s b1) := by
      simp [postBook, hne1, h1, hf, hi]
    have hc1 : countId (insertOne s b1) i = 1 := by
      rw [countId_insertOne s b1 i h1, hc0]
    obtain ⟨d, hf1⟩ := countId_pos_exists (insertOne s b1) i (by omega)
    have p2 : postBook (insertOne s b1) b2 = (409, insertOne s b1) := by
      simp [postBook, hne2, h2, hf1, hi]
    simp [p1, p2, hc1]

/-- Witness for `postBook_second_conflict`: posting `bkD` twice into the
empty collection. -/
theorem postBook_second_conflict_witness :
    (postBook (postBook emptyColl bkD).2 bkD).1 = 409 ∧
      countId (postBook (postBook emptyColl bkD).2 bkD).2 "b1" = 1 :=
  postBook_second_conflict emptyColl bkD bkD "b1" (by decide) rfl rfl
    (by decide)

/-! ## C4: PUT on a nonexistent id -/

/-- C4: a PUT whose `id` matches no stored document, with a body
carrying at least one recognized (string-valued) field, returns 404 and
returns the collection unchanged (same documents, same counter). -/
theorem putBook_not_found (s : Collection) (i : String) (p : Payload)
    (hne : buildUpdateSet p ≠ []) (hnone : ∀ d ∈ s.docs, d.id ≠ i) :
    putBook s i p = (404, none, s) := by
  have hisEmpty : (buildUpdateSet p).isEmpty = false := by
    cases hbu : buildUpdateSet p with
    | nil => exact absurd hbu hne
    | cons a l => rfl
  have hany : (s.docs.any fun d => d.id == i) = false := by
    rw [← Bool.not_eq_true, List.any_eq_true]
    rintro ⟨x, hx, hbe⟩
    exact hnone x hx (eq_of_beq hbe)
  simp [putBook, hisEmpty, hany]

/-- Witness for `putBook_not_found`: updating id "zzz" absent from the
one-document collection. -/
theorem putBook_not_found_witness :
    putBook oneColl "zzz" [("title", JVal.str "T")] =
      (404, none, oneColl) :=
  putBook_not_found oneColl "zzz" [("title", JVal.str "T")] (by decide)
    (by decide)

/-! ## C5: PUT with only unrecognized keys -/

theorem stringField_eq_none (p : Payload) (k : String)
    (h : ∀ kv ∈ p, ¬(kv.1 == k) = true) : stringField p k = none := by
  simp [stringField, List.find?_eq_none.mpr h]

theorem find?_filter_of_imp {α : Type} (q r : α → Bool) (l : List α)
    (h : ∀ x, q x = true → r x = true) :
    (l.filter r).find? q = l.find? q := by
  induction l with
  | nil => rfl
  | cons a as ih =>
    by_cases hqa : q a = true
    · have hra : r a = true := h a hqa
      simp [List.filter_cons, hra, List.find?_cons_of_pos _ hqa]
    · by_cases hra : r a = true
      · simp [List.filter_cons, hra, List.find?_cons_of_neg _ hqa, ih]
      · simp [List.filter_cons, hra, List.find?_cons_of_neg _ hqa, ih]

/-- The five wire keys the PUT handler recognizes. -/
def recognizedKeys : List String :=
  ["title", "author", "edition", "pages", "year"]

theorem stringField_filter_recognized (p : Payload) (k : String)
    (hk : recognizedKeys.contains k = true) :
    stringField (p.filter (fun kv => recognizedKeys.contains kv.1)) k =
      stringField p k := by
  unfold stringField
  rw [find?_filter_of_imp]
  intro kv hb
  have hkv : kv.1 = k := eq_of_beq hb
  rw [hkv]
  exact hk

/-- C5: a PUT whose parsed body contains none of the recognized keys
(`title`, `author`, `edition`, `pages`, `year`) returns 400 and leaves
the collection (hence the addressed document) unchanged; and in general
the handler reads only the recognized keys of the body: dropping every
unrecognized key gives the identical response and state. -/
theorem putBook_unrecognized_keys :
    (∀ (s : Collection) (i : String) (p : Payload),
        (∀ kv ∈ p, kv.1 ∉ recognizedKeys) →
        putBook s i p = (400, none, s)) ∧
    (∀ (s : Collection) (i : String) (p : Payload),
        putBook s i p =
          putBook s i (p.filter (fun kv => recognizedKeys.contains kv.1))) := by
  constructor
  · intro s i p h
    have hsf : ∀ k, k ∈ recognizedKeys → stringField p k = none := by
      intro k hk
      apply stringField_eq_none
      intro kv hm hbe
      apply h kv hm
      rw [eq_of_beq hbe]
      exact hk
    have hbu : buildUpdateSet p = [] := by
      simp [buildUpdateSet, hsf "title" (by decide), hsf "author" (by decide),
        hsf "edition" (by decide), hsf "pages" (by decide),
        hsf "year" (by decide)]
    simp [putBook, hbu]
  · intro s i p
    have hbu : buildUpdateSet (p.filter
        (fun kv => recognizedKeys.contains kv.1)) = buildUpdateSet p := by
      simp only [buildUpdateSet]
      rw [stringField_filter_recognized p "title" (by decide),
        stringField_filter_recognized p "author" (by decide),
        stringField_filter_recognized p "edition" (by decide),
        stringField_filter_recognized p "pages" (by decide),
        stringField_filter_recognized p "year" (by decide)]
    simp only [putBook, hbu]

/-- Witness for `putBook_unrecognized_keys`: a body holding only
`{"publisher": "X"}`. -/
theorem putBook_unrecognized_keys_witness :
    putBook oneColl "b1" [("publisher", JVal.str "X")] =
      (400, none, oneColl) :=
  putBook_unrecognized_keys.1 oneColl "b1" [("publisher", JVal.str "X")]
    (by decide)

/-! ## C10: non-string values under recognized keys -/

/-- Whether a JSON value is a string, i.e. whether the handler's
`.(string)` type assertion succeeds on it. -/
def isJStr : JVal → Bool
  | JVal.str _ => true
  | _ => false

@[simp] theorem isJStr_str (w : String) : isJStr (JVal.str w) = true := rfl

@[simp] theorem isJStr_num (n : Int) : isJStr (JVal.num n) = false := rfl

@[simp] theorem isJStr_jsonBool (b : Bool) :
    isJStr (JVal.jsonBool b) = false := rfl

@[simp] theorem isJStr_jsonNull : isJStr JVal.jsonNull = false := rfl

theorem stringField_cons (k k' : String) (v : JVal) (p : Payload) :
    stringField ((k', v) :: p) k =
      if k' == k then
        (match v with
          | JVal.str w => some w
          | JVal.num _ => none
          | JVal.jsonBool _ => none
          | JVal.jsonNull => none)
      else stringField p k := by
  by_cases h : (k' == k) = true
  · rw [if_pos h]
    unfold stringField
    rw [@List.find?_cons_of_pos _ (fun kv => kv.1 == k) (k', v) p h]
    cases v <;> rfl
  · rw [if_neg h]
    unfold stringField
    rw [@List.find?_cons_of_neg _ (fun kv => kv.1 == k) (k', v) p h]

theorem stringField_none_of_key_notin (as : Payload) (k : String)
    (hk : k ∉ as.map Prod.fst) : stringField as k = none := by
  apply stringField_eq_none
  intro kv hm hbe
  apply hk
  rw [← eq_of_beq hbe]
  exact List.mem_map_of_mem Prod.fst hm

theorem stringField_filter_str (k : String) :
    ∀ (p : Payload), (p.map Prod.fst).Nodup →
      stringField (p.filter (fun kv => isJStr kv.2)) k = stringField p k := by
  intro p
  induction p with
  | nil => intro _; rfl
  | cons a as ih =>
    intro hnd
    obtain ⟨k', v⟩ := a
    rw [List.map_cons, List.nodup_cons] at hnd
    obtain ⟨hna, hnd'⟩ := hnd
    by_cases hak : (k' == k) = true
    · have hkk : k' = k := eq_of_beq hak
      have hnone : stringField as k = none :=
        stringField_none_of_key_notin as k (by rw [← hkk]; exact hna)
      cases v with
      | str w =>
        rw [List.filter_cons, if_pos (by simp), stringField_cons,
          stringField_cons, if_pos hak, if_pos hak]
      | num n =>
        rw [List.filter_cons, if_neg (by simp), ih hnd', stringField_cons,
          if_pos hak, hnone]
      | jsonBool b =>
        rw [List.filter_cons, if_neg (by simp), ih hnd', stringField_cons,
          if_pos hak, hnone]
      | jsonNull =>
        rw [List.filter_cons, if_neg (by simp), ih hnd', stringField_cons,
          if_pos hak, hnone]
    · rw [List.filter_cons]
      by_cases hv : isJStr v = true
      · rw [if_pos hv, stringField_cons, stringField_cons, if_neg hak,
          if_neg hak]
        exact ih hnd'
      · rw [if_neg hv, stringField_cons, if_neg hak]
        exact ih hnd'

/-- C10: a recognized key whose JSON value is not a string is ignored
exactly like an unrecognized key — over any body with distinct keys (as
a parsed JSON object has), dropping the non-string-valued entries leaves
the computed `updateSet` unchanged — and consequently a body every one
of whose recognized keys carries a non-string value yields 400 and
leaves the collection (hence the addressed document) unchanged. -/
theorem putBook_nonstring_values :
    (∀ p : Payload, (p.map Prod.fst).Nodup →
        buildUpdateSet (p.filter (fun kv => isJStr kv.2)) =
          buildUpdateSet p) ∧
    (∀ (s : Collection) (i : String) (p : Payload),
        (∀ kv ∈ p, kv.1 ∈ recognizedKeys → isJStr kv.2 = false) →
        putBook s i p = (400, none, s)) := by
  constructor
  · intro p hnd
    simp only [buildUpdateSet]
    rw [stringField_filter_str "title" p hnd,
      stringField_filter_str "author" p hnd,
      stringField_filter_str "edition" p hnd,
      stringField_filter_str "pages" p hnd,
      stringField_filter_str "year" p hnd]
  · intro s i p h
    have hsf : ∀ k, k ∈ recognizedKeys → stringField p k = none := by
      intro k hk
      unfold stringField
      cases hf : p.find? (fun kv => kv.1 == k) with
      | none => rfl
      | some kv =>
        obtain ⟨k', v⟩ := kv
        have hbe : (k' == k) = true :=
          @List.find?_some _ (fun kv => kv.1 == k) (k', v) p hf
        have hm := List.mem_of_find?_eq_some hf
        have hns : isJStr v = false :=
          h (k', v) hm (by rw [show (k', v).1 = k from eq_of_beq hbe]; exact hk)
        cases v with
        | str w => simp [isJStr] at hns
        | num n => rfl
        | jsonBool b => rfl
        | jsonNull => rfl
    have hbu : buildUpdateSet p = [] := by
      simp [buildUpdateSet, hsf "title" (by decide), hsf "author" (by decide),
        hsf "edition" (by decide), hsf "pages" (by decide),
        hsf "year" (by decide)]
    simp [putBook, hbu]

/-- Witness for `putBook_nonstring_values`: the body `{"pages": 100}`. -/
theorem putBook_nonstring_values_witness :
    putBook oneColl "b1" [("pages", JVal.num 100)] = (400, none, oneColl) :=
  putBook_nonstring_values.2 oneColl "b1" [("pages", JVal.num 100)]
    (by decide)

/-! ## C6: seed idempotence -/

theorem matchesBook_stamp (b b' : BookStore) (x : Option Nat) :
    matchesBook b { b' with mongoID := x } = matchesBook b b' := rfl

theorem matchesBook_self (b : BookStore) : matchesBook b b = true := by
  simp [matchesBook]

theorem seedBook_count_one (b : BookStore) (s : Collection)
    (h : countMatches b s = 1) : seedBook b s = some s := by
  unfold countMatches at h
  simp [seedBook, h]

theorem seedBook_sets_one (b : BookStore) (s s' : Collection)
    (h : seedBook b s = some s') : countMatches b s' = 1 := by
  unfold seedBook at h
  by_cases h1 : (s.docs.filter (matchesBook b)).length > 1
  · simp [h1] at h
  · by_cases h0 : (s.docs.filter (matchesBook b)).length = 0
    · simp [h1, h0] at h
      rw [← h]
      unfold countMatches insertOne
      rw [List.filter_append]
      simp [matchesBook_stamp, matchesBook_self, h0]
    · have hone : (s.docs.filter (matchesBook b)).length = 1 := by omega
      simp [h1, h0] at h
      rw [← h]
      exact hone

theorem seedBook_preserves (b b' : BookStore) (s s' : Collection)
    (hne : matchesBook b b' = false) (h : seedBook b' s = some s') :
    countMatches b s' = countMatches b s := by
  unfold seedBook at h
  by_cases h1 : (s.docs.filter (matchesBook b')).length > 1
  · simp [h1] at h
  · by_cases h0 : (s.docs.filter (matchesBook b')).length = 0
    · simp [h1, h0] at h
      rw [← h]
      unfold countMatches insertOne
      rw [List.filter_append]
      simp [matchesBook_stamp, hne]
    · simp [h1, h0] at h
      rw [← h]

/-- C6: the seed routine is idempotent — whenever `prepareData`
completes on some store (each fixture matched by full-value equality at
most once along the way, zero matches inserting, one match skipping,
more being fatal), running it again on the resulting store succeeds and
returns that store unchanged, so in particular the document count is
unchanged. -/
theorem prepareData_idempotent (s s' : Collection)
    (h : prepareData s = some s') : prepareData s' = some s' := by
  unfold prepareData startData at h
  simp only [List.foldlM_cons, List.foldlM_nil] at h
  cases hs1 : seedBook fixture1 s with
  | none => rw [hs1] at h; simp at h
  | some s1 =>
  rw [hs1] at h
  simp only [Option.bind_eq_bind, Option.some_bind] at h
  cases hs2 : seedBook fixture2 s1 with
  | none => rw [hs2] at h; simp at h
  | some s2 =>
  rw [hs2] at h
  simp only [Option.bind_eq_bind, Option.some_bind] at h
  cases hs3 : seedBook fixture3 s2 with
  | none => rw [hs3] at h; simp at h
  | some s3 =>
  rw [hs3] at h
  simp only [Option.bind_eq_bind, Option.some_bind] at h
  have hs3e : s3 = s' := by simpa using h
  rw [← hs3e]
  have c1 : countMatches fixture1 s3 = 1 := by
    have a1 := seedBook_sets_one fixture1 s s1 hs1
    have a2 := seedBook_preserves fixture1 fixture2 s1 s2 (by decide) hs2
    have a3 := seedBook_preserves fixture1 fixture3 s2 s3 (by decide) hs3
    omega
  have c2 : countMatches fixture2 s3 = 1 := by
    have a2 := seedBook_sets_one fixture2 s1 s2 hs2
    have a3 := seedBook_preserves fixture2 fixture3 s2 s3 (by decide) hs3
    omega
  have c3 : countMatches fixture3 s3 = 1 :=
    seedBook_sets_one fixture3 s2 s3 hs3
  unfold prepareData startData
  simp only [List.foldlM_cons, List.foldlM_nil]
  rw [seedBook_count_one fixture1 s3 c1]
  simp only [Option.bind_eq_bind, Option.some_bind]
  rw [seedBook_count_one fixture2 s3 c2]
  simp only [Option.bind_eq_bind, Option.some_bind]
  rw [seedBook_count_one fixture3 s3 c3]
  rfl

/-- The store produced by seeding an empty collection. -/
def seededColl : Collection :=
  { docs := [{ fixture1 with mongoID := some 0 },
             { fixture2 with mongoID := some 1 },
             { fixture3 with mongoID := some 2 }],
    nextOid := 3 }

/-- Witness for `prepareData_idempotent`: seeding the empty store yields
`seededColl`, and seeding again returns it unchanged. -/
theorem prepareData_idempotent_witness :
    prepareData seededColl = some seededColl :=
  prepareData_idempotent emptyColl seededColl (by decide)

/-! ## C7: DELETE lifecycle -/

/-- C7: deleting an `id` stored exactly once returns 200 with no body;
fetching that `id` afterwards finds no document; and deleting it again
returns 404 (with the handler's error body) leaving the state as is. -/
theorem deleteBook_lifecycle (s : Collection) (i : String)
    (h : countId s i = 1) :
    (deleteBook s i).1 = 200 ∧ (deleteBook s i).2.1 = none ∧
      findOneById (deleteBook s i).2.2 i = none ∧
      deleteBook (deleteBook s i).2.2 i =
        (404, some ("Book not found with ID " ++ i),
          (deleteBook s i).2.2) := by
  have hany : (s.docs.any fun d => d.id == i) = true := by
    obtain ⟨d, hd⟩ := countId_pos_exists s i (by omega)
    exact any_of_find?_eq_some _ _ _ hd
  have hfilter : ((removeFirst (fun d => d.id == i) s.docs).filter
      (fun d => d.id == i)) = [] := by
    rw [filter_removeFirst]
    unfold countId at h
    obtain ⟨a, ha⟩ := List.length_eq_one.mp h
    rw [ha]
    rfl
  have hnotin := List.filter_eq_nil_iff.mp hfilter
  have hfind : findOneById
      { s with docs := removeFirst (fun d => d.id == i) s.docs } i = none := by
    unfold findOneById
    rw [List.find?_eq_none]
    exact hnotin
  have hany2 : ((removeFirst (fun d => d.id == i) s.docs).any
      fun d => d.id == i) = false := by
    rw [← Bool.not_eq_true, List.any_eq_true]
    rintro ⟨x, hx, hbe⟩
    exact hnotin x hx hbe
  refine ⟨?_, ?_, ?_, ?_⟩ <;> simp [deleteBook, hany, hany2, hfind]

/-- Witness for `deleteBook_lifecycle` on the one-document collection. -/
theorem deleteBook_lifecycle_witness :
    (deleteBook oneColl "b1").1 = 200 ∧
      (deleteBook oneColl "b1").2.1 = none ∧
      findOneById (deleteBook oneColl "b1").2.2 "b1" = none ∧
      deleteBook (deleteBook oneColl "b1").2.2 "b1" =
        (404, some ("Book not found with ID " ++ "b1"),
          (deleteBook oneColl "b1").2.2) :=
  deleteBook_lifecycle oneColl "b1" (by decide)

/-! ## C8: distinct authors -/

theorem authors_extract_list (l : List BookStore) :
    ((l.map (fun res =>
        [("id", res.id), ("title", res.bookName), ("author", res.bookAuthor),
         ("pages", res.bookPages), ("edition", res.bookEdition),
         ("year", res.bookYear)])).filterMap
      (fun book => (book.find? (fun kv => kv.1 == "author")).map
        (fun kv => kv.2))) = l.map (fun d => d.bookAuthor) := by
  induction l with
  | nil => rfl
  | cons a l ih => exact congrArg (List.cons a.bookAuthor) ih

theorem findAllAuthors_eq (s : Collection) :
    findAllAuthors s =
      ((s.docs.map (fun d => d.bookAuthor)).dedup).map
        (fun a => [("AuthorName", a)]) := by
  unfold findAllAuthors findAllBooks
  rw [authors_extract_list]

/-- C8: `findAllAuthors` deduplicates by exact string equality — the
result holds the entry of author `a` exactly once when some stored book
has author `a` and never otherwise — and over any state whose three
books carry authors "A", "B", "A" it returns exactly two entries, the
one for "A" and the one for "B". -/
theorem findAllAuthors_distinct :
    (∀ (s : Collection) (a : String),
        (findAllAuthors s).count [("AuthorName", a)] =
          if a ∈ s.docs.map (fun d => d.bookAuthor) then 1 else 0) ∧
    (∀ s : Collection,
        s.docs.map (fun d => d.bookAuthor) = ["A", "B", "A"] →
        (findAllAuthors s).length = 2 ∧
          [("AuthorName", "A")] ∈ findAllAuthors s ∧
          [("AuthorName", "B")] ∈ findAllAuthors s) := by
  constructor
  · intro s a
    rw [findAllAuthors_eq s]
    have hcount : ∀ l : List String,
        (l.map (fun x => [("AuthorName", x)])).count [("AuthorName", a)] =
          l.count a := by
      intro l
      induction l with
      | nil => rfl
      | cons b l ih =>
        rw [List.map_cons, List.count_cons, List.count_cons, ih]
        have hbe : (([("AuthorName", b)] : List (String × String)) ==
            [("AuthorName", a)]) = (b == a) := by
          by_cases hba : b = a
          · subst hba; simp
          · rw [beq_eq_false_iff_ne.mpr hba,
              beq_eq_false_iff_ne.mpr (by simp [hba])]
        rw [hbe]
    rw [hcount]
    by_cases hm : a ∈ s.docs.map (fun d => d.bookAuthor)
    · rw [if_pos hm]
      exact List.count_eq_one_of_mem (List.nodup_dedup _)
        (List.mem_dedup.mpr hm)
    · rw [if_neg hm]
      exact List.count_eq_zero_of_not_mem
        (fun hc => hm (List.mem_dedup.mp hc))
  · intro s hs
    rw [findAllAuthors_eq s, hs]
    refine ⟨by decide, by decide, by decide⟩

/-- Three stored books whose authors are "A", "B", "A". -/
def threeColl : Collection :=
  { docs :=
      [{ mongoID := some 0, id := "x1", bookName := "N1", bookAuthor := "A",
         bookEdition := "E1", bookPages := "1", bookYear := "2001" },
       { mongoID := some 1, id := "x2", bookName := "N2", bookAuthor := "B",
         bookEdition := "E2", bookPages := "2", bookYear := "2002" },
       { mongoID := some 2, id := "x3", bookName := "N3", bookAuthor := "A",
         bookEdition := "E3", bookPages := "3", bookYear := "2003" }],
    nextOid := 3 }

/-- Witness for `findAllAuthors_distinct` on `threeColl`. -/
theorem findAllAuthors_distinct_witness :
    (findAllAuthors threeColl).length = 2 ∧
      [("AuthorName", "A")] ∈ findAllAuthors threeColl ∧
      [("AuthorName", "B")] ∈ findAllAuthors threeColl :=
  findAllAuthors_distinct.2 threeColl (by decide)

/-! ## C9: GET /api/books projection -/

/-- C9: `GET /api/books` answers 200; the body holds one wire object per
stored document, in order, and the `j`-th object is exactly the six
pairs `id`, `title`, `author`, `pages`, `edition`, `year` drawn from the
`j`-th stored document's attributes — in particular the store-assigned
`mongoID` is not part of any wire object. -/
theorem getBooks_projection (s : Collection) :
    (getBooks s).1 = 200 ∧
      (getBooks s).2.length = s.docs.length ∧
      ∀ j : Nat, (getBooks s).2[j]? =
        (s.docs[j]?).map (fun d =>
          [("id", d.id), ("title", d.bookName), ("author", d.bookAuthor),
           ("pages", d.bookPages), ("edition", d.bookEdition),
           ("year", d.bookYear)]) := by
  refine ⟨rfl, by simp [getBooks, findAllBooks], fun j => ?_⟩
  simp [getBooks, findAllBooks, List.getElem?_map]

end BookSvc
